import Mathlib

/-!
Verification of the task-group shutdown/drain primitive
(`src/oceanraft/src/util/task_group.rs`).

The Rust module implements a shutdown-broadcast plus quiescence-barrier
primitive over a shared state with an atomic task counter (`num_tasks`,
an `AtomicU32`), a one-way drained latch (`stopped`, an `AtomicBool`),
a single mutex-guarded waker slot (`waker : Mutex<Option<Waker>>`), and a
wake-all notification facility (`stop_notify : tokio::sync::Notify`).

The shallow embedding below represents the shared state as a record and
every operation of the module as a pure function on that record.  Machine
integers are modelled as `Nat` with an explicit `% 2^32` exactly where the
`AtomicU32` arithmetic can wrap.  The `tokio::sync::Notify` facility is
modelled by a generation counter: `notify_waiters` advances the
generation, and a `Notified` subscription stores the generation current
at its creation and completes exactly when the generation has advanced
past it.  This captures the documented tokio semantics that
`notify_waiters` wakes exactly the subscriptions created before the call
and stores no permit for later subscribers.  Mutex poisoning of the waker
slot is modelled by a boolean component, since the Rust code handles the
poisoned case explicitly (`map_or(false, ...)` in `set_waker`, the
discarded `Result` in `wake`).

Concurrency is modelled by interleaving traces of the three primitive
state-changing events of the module (a spawn increment, a `StopGuard`
release, a `stop` call); the claims about poll results are stated against
the states such traces reach.
-/

namespace TaskGroupSpec

/-- A waker is modelled as an opaque identifier. -/
abbrev Waker := Nat

/-- The `AtomicU32` modulus: `num_tasks` arithmetic wraps at `2^32`. -/
abbrev u32Mod : Nat := 4294967296

/-- Model of `TaskSharedState` (task_group.rs, lines 17-22).
`num_tasks` is the `AtomicU32` live-task counter, `wakerPoisoned` models
poisoning of the `Mutex` that guards the waker slot, `waker` is the slot
itself, `stopped` is the drained latch, and `notifyGen` is the generation
counter modelling `stop_notify : Notify` (each `notify_waiters` call
advances it by one). -/
structure TaskSharedState where
  num_tasks : Nat
  wakerPoisoned : Bool
  waker : Option Waker
  stopped : Bool
  notifyGen : Nat
deriving Repr, DecidableEq

/-- Model of `TaskSharedState::new` (lines 31-38): counter zero, empty
waker slot, latch false. -/
def TaskSharedState.new : TaskSharedState :=
  { num_tasks := 0, wakerPoisoned := false, waker := none,
    stopped := false, notifyGen := 0 }

/-- Model of `TaskSharedState::wake` (lines 41-46): take the registered
waker out of the slot and invoke it; a poisoned lock is ignored (the
`Result` is discarded).  The second component lists the wakers invoked. -/
def TaskSharedState.wake (s : TaskSharedState) : TaskSharedState × List Waker :=
  if s.wakerPoisoned then (s, [])
  else
    match s.waker with
    | some w => ({ s with waker := none }, [w])
    | none => (s, [])

/-- Model of `TaskSharedState::set_waker` (lines 50-55): store the waker
of the polling context in the slot, returning `false` when the lock is
poisoned (`map_or(false, ...)`). -/
def TaskSharedState.set_waker (s : TaskSharedState) (w : Waker) :
    TaskSharedState × Bool :=
  if s.wakerPoisoned then (s, false)
  else ({ s with waker := some w }, true)

/-- Model of `TaskSharedState::stop` (lines 59-65): return immediately
when the drained latch is set, otherwise call
`stop_notify.notify_waiters()`, modelled as advancing the notify
generation. -/
def TaskSharedState.stop (s : TaskSharedState) : TaskSharedState :=
  if s.stopped then s
  else { s with notifyGen := s.notifyGen + 1 }

/-- The `fetch_sub(1, ...)` of `StopGuard::drop` (line 76) on the
`AtomicU32` counter: wrapping subtraction by one modulo `2^32`, written
in the branch form that equals `(n + (2^32 - 1)) % 2^32` for every
in-range counter value (see `decStep_num_eq_mod`). -/
def TaskSharedState.decStep (s : TaskSharedState) : TaskSharedState :=
  { s with num_tasks := if s.num_tasks = 0 then u32Mod - 1 else s.num_tasks - 1 }

/-- The conditional store of `StopGuard::drop` (lines 79-81): when the
pre-decrement counter value was `1`, store `true` into the drained
latch. -/
def TaskSharedState.storeStep (prev : Nat) (s : TaskSharedState) :
    TaskSharedState :=
  if prev = 1 then { s with stopped := true } else s

/-- Model of `StopGuard::drop` (lines 74-83), decomposed into its three
ordered steps exactly as in the source: first the `fetch_sub` decrement
(which returns the pre-decrement value), then `wake()`, then the
conditional store into the drained latch.  The second component lists the
wakers invoked. -/
def StopGuard.drop (s : TaskSharedState) : TaskSharedState × List Waker :=
  let prev := s.num_tasks
  let s1 := s.decStep
  let s2w := s1.wake
  (TaskSharedState.storeStep prev s2w.1, s2w.2)

/-- The `fetch_add(1, ...)` performed by `spawn` (line 233) before the
task is scheduled. -/
def spawnInc (s : TaskSharedState) : TaskSharedState :=
  { s with num_tasks := (s.num_tasks + 1) % u32Mod }

/-- Model of the sentinel value `Stopped` (line 89). -/
inductive Stopped
  | mk
deriving Repr, DecidableEq

/-- Model of `std::task::Poll`. -/
inductive Poll (α : Type)
  | ready (a : α)
  | pending
deriving Repr, DecidableEq

/-- Model of `Stopper` (lines 103-109): it holds either one `Notified`
subscription, represented by the notify generation captured at creation,
or no subscription at all (the `None` branch of `Stopper::new`). -/
structure Stopper where
  notified : Option Nat
deriving Repr, DecidableEq

/-- Model of `Stopper::new` (lines 111-128): when the drained latch is
already set no subscription is taken, otherwise one subscription to
`stop_notify` is created, capturing the current notify generation. -/
def Stopper.new (s : TaskSharedState) : Stopper :=
  if s.stopped then { notified := none }
  else { notified := some s.notifyGen }

/-- Model of `Stopper::stopped` (lines 131-133): read the drained
latch. -/
def Stopper.stoppedQ (_st : Stopper) (s : TaskSharedState) : Bool :=
  s.stopped

/-- Model of polling a `tokio::sync::futures::Notified` subscription: it
completes exactly when `notify_waiters` has been called since the
subscription was created, i.e. when the notify generation has advanced
past the captured one. -/
def pollNotified (gen : Nat) (s : TaskSharedState) : Poll Unit :=
  if gen < s.notifyGen then Poll.ready () else Poll.pending

/-- Model of `<Stopper as Future>::poll` (lines 136-151): first re-check
the drained latch; when it is set, resolve; otherwise delegate to the
subscription, a missing subscription meaning immediate resolution. -/
def Stopper.poll (st : Stopper) (s : TaskSharedState) : Poll Stopped :=
  if s.stopped then Poll.ready Stopped.mk
  else
    match st.notified with
    | some gen =>
      match pollNotified gen s with
      | Poll.ready _ => Poll.ready Stopped.mk
      | Poll.pending => Poll.pending
    | none => Poll.ready Stopped.mk

/-- Model of `<Stopper as FusedFuture>::is_terminated` (lines 153-157):
it returns `self.stopped()`, i.e. the drained latch. -/
def Stopper.is_terminated (st : Stopper) (s : TaskSharedState) : Bool :=
  st.stoppedQ s

/-- Model of `<Joinner as Future>::poll` (lines 172-188): ready when the
drained latch is set; otherwise register the waker of the polling
context, answering `pending` on success and — failing open — `ready`
when the registration fails. -/
def Joinner.poll (s : TaskSharedState) (w : Waker) :
    TaskSharedState × Poll Unit :=
  if s.stopped then (s, Poll.ready ())
  else
    let r := s.set_waker w
    if r.2 then (r.1, Poll.pending) else (r.1, Poll.ready ())

/-- The three primitive state-changing events of the module, used to
build interleaving traces: the spawn increment (line 233), a `StopGuard`
release (lines 74-83), and a `TaskGroup::stop` call (lines 59-65). -/
inductive Event
  | spawnEv
  | releaseEv
  | stopEv
deriving Repr, DecidableEq

/-- Apply one event to the shared state. -/
def applyEvent (s : TaskSharedState) : Event → TaskSharedState
  | Event.spawnEv => spawnInc s
  | Event.releaseEv => (StopGuard.drop s).1
  | Event.stopEv => s.stop

/-- Run a trace of events from a state. -/
def runTrace (s : TaskSharedState) (tr : List Event) : TaskSharedState :=
  tr.foldl applyEvent s

/-- Number of spawn events in a trace. -/
def spawnCount : List Event → Nat
  | [] => 0
  | Event.spawnEv :: rest => spawnCount rest + 1
  | _ :: rest => spawnCount rest

/-- Number of release events in a trace. -/
def releaseCount : List Event → Nat
  | [] => 0
  | Event.releaseEv :: rest => releaseCount rest + 1
  | _ :: rest => releaseCount rest

/-- A trace is balanced from a given live count when no release occurs
with zero tasks outstanding: every release is matched to an earlier
spawn. -/
def balancedFrom : Nat → List Event → Bool
  | _, [] => true
  | live, Event.spawnEv :: rest => balancedFrom (live + 1) rest
  | live, Event.releaseEv :: rest => decide (0 < live) && balancedFrom (live - 1) rest
  | live, Event.stopEv :: rest => balancedFrom live rest

/-- A trace never drains from a given live count when no release occurs
with exactly one task outstanding, so the live count never returns to
zero and the drained latch is never set. -/
def noDrain : Nat → List Event → Bool
  | _, [] => true
  | live, Event.spawnEv :: rest => noDrain (live + 1) rest
  | live, Event.releaseEv :: rest => decide (live ≠ 1) && noDrain (live - 1) rest
  | live, Event.stopEv :: rest => noDrain live rest

/-- Number of false-to-true transitions of the drained latch along a
trace. -/
def flipCount (s : TaskSharedState) : List Event → Nat
  | [] => 0
  | e :: rest =>
    (if s.stopped = false ∧ (applyEvent s e).stopped = true then 1 else 0)
      + flipCount (applyEvent s e) rest

/-- The ways a spawned task can exit.  `cancelledAfterPolls k` is an
external cancellation (`JoinHandle::abort` or runtime shutdown) that
drops the task future after it has started running and taken `k` body
steps; `panicked k` is a panic after `k` body steps;
`cancelledBeforeFirstPoll` is an external cancellation that drops the
task future before its first poll, so the body never runs at all. -/
inductive ExitKind
  | completed
  | cancelledBeforeFirstPoll
  | cancelledAfterPolls (k : Nat)
  | panicked (k : Nat)
deriving Repr, DecidableEq

/-- The operations a spawned task can perform on the shared state:
creating its `StopGuard`, an (irrelevant) body step, and dropping the
`StopGuard`. -/
inductive TaskOp
  | acquireGuard
  | bodyStep
  | releaseGuard
deriving Repr, DecidableEq

/-- Model of the wrapper `spawn` schedules (lines 234-237):
`async move { let _guard = StopGuard(TASK_GROUP.shared.clone()); future.await }`.
Per Rust drop semantics the local `_guard` is created when the async
block first runs and is dropped exactly once on every exit of a body
that has started — normal return, unwinding after a panic, and drop of
the suspended future on cancellation — because the local is live across
the await point.  A future dropped before its first poll never executes
the block body, so the guard local is never created and no release
happens: only the captured `future` upvar is dropped. -/
def wrapperOps (bodySteps : Nat) : ExitKind → List TaskOp
  | ExitKind.completed =>
    TaskOp.acquireGuard :: (List.replicate bodySteps TaskOp.bodyStep ++ [TaskOp.releaseGuard])
  | ExitKind.cancelledBeforeFirstPoll => []
  | ExitKind.cancelledAfterPolls k =>
    TaskOp.acquireGuard :: (List.replicate (min k bodySteps) TaskOp.bodyStep ++ [TaskOp.releaseGuard])
  | ExitKind.panicked k =>
    TaskOp.acquireGuard :: (List.replicate (min k bodySteps) TaskOp.bodyStep ++ [TaskOp.releaseGuard])

/-- Number of `StopGuard` releases a task performs. -/
def releaseGuardCount (ops : List TaskOp) : Nat :=
  ops.foldl (fun n op => if op = TaskOp.releaseGuard then n + 1 else n) 0

/-- Effect of one task operation on the shared state: only the guard
release touches it (`StopGuard::drop`, lines 74-83). -/
def taskOpEffect (s : TaskSharedState) : TaskOp → TaskSharedState
  | TaskOp.acquireGuard => s
  | TaskOp.bodyStep => s
  | TaskOp.releaseGuard => (StopGuard.drop s).1

/-- Run the operations of one task on the shared state. -/
def runTaskOps (s : TaskSharedState) (ops : List TaskOp) : TaskSharedState :=
  ops.foldl taskOpEffect s

/-! ### Field-preservation lemmas for the primitive operations -/

lemma wake_fst_num (s : TaskSharedState) : (s.wake).1.num_tasks = s.num_tasks := by
  unfold TaskSharedState.wake
  split
  · rfl
  · split <;> rfl

lemma wake_fst_stopped (s : TaskSharedState) : (s.wake).1.stopped = s.stopped := by
  unfold TaskSharedState.wake
  split
  · rfl
  · split <;> rfl

lemma wake_fst_notifyGen (s : TaskSharedState) : (s.wake).1.notifyGen = s.notifyGen := by
  unfold TaskSharedState.wake
  split
  · rfl
  · split <;> rfl

lemma wake_fst_poisoned (s : TaskSharedState) :
    (s.wake).1.wakerPoisoned = s.wakerPoisoned := by
  unfold TaskSharedState.wake
  split
  · rfl
  · split <;> rfl

lemma stop_num (s : TaskSharedState) : (s.stop).num_tasks = s.num_tasks := by
  unfold TaskSharedState.stop
  split <;> rfl

lemma stop_stopped (s : TaskSharedState) : (s.stop).stopped = s.stopped := by
  unfold TaskSharedState.stop
  split <;> rfl

lemma stop_poisoned (s : TaskSharedState) :
    (s.stop).wakerPoisoned = s.wakerPoisoned := by
  unfold TaskSharedState.stop
  split <;> rfl

lemma stop_waker (s : TaskSharedState) : (s.stop).waker = s.waker := by
  unfold TaskSharedState.stop
  split <;> rfl

lemma storeStep_num (prev : Nat) (s : TaskSharedState) :
    (TaskSharedState.storeStep prev s).num_tasks = s.num_tasks := by
  unfold TaskSharedState.storeStep
  split <;> rfl

lemma storeStep_stopped (prev : Nat) (s : TaskSharedState) :
    (TaskSharedState.storeStep prev s).stopped = (s.stopped || decide (prev = 1)) := by
  unfold TaskSharedState.storeStep
  by_cases h : prev = 1 <;> simp [h]

lemma storeStep_notifyGen (prev : Nat) (s : TaskSharedState) :
    (TaskSharedState.storeStep prev s).notifyGen = s.notifyGen := by
  unfold TaskSharedState.storeStep
  split <;> rfl

lemma storeStep_poisoned (prev : Nat) (s : TaskSharedState) :
    (TaskSharedState.storeStep prev s).wakerPoisoned = s.wakerPoisoned := by
  unfold TaskSharedState.storeStep
  split <;> rfl

lemma decStep_num_eq_mod (s : TaskSharedState) (h : s.num_tasks < u32Mod) :
    (s.decStep).num_tasks = (s.num_tasks + (u32Mod - 1)) % u32Mod := by
  show (if s.num_tasks = 0 then u32Mod - 1 else s.num_tasks - 1)
      = (s.num_tasks + (4294967296 - 1)) % 4294967296
  have h2 : s.num_tasks < 4294967296 := h
  by_cases h0 : s.num_tasks = 0
  · rw [if_pos h0, h0]
    decide
  · rw [if_neg h0]
    omega

lemma drop_fst_num (s : TaskSharedState) :
    (StopGuard.drop s).1.num_tasks
      = (if s.num_tasks = 0 then u32Mod - 1 else s.num_tasks - 1) := by
  show (TaskSharedState.storeStep s.num_tasks ((s.decStep).wake).1).num_tasks = _
  rw [storeStep_num, wake_fst_num]
  rfl

lemma drop_fst_stopped (s : TaskSharedState) :
    (StopGuard.drop s).1.stopped = (s.stopped || decide (s.num_tasks = 1)) := by
  show (TaskSharedState.storeStep s.num_tasks ((s.decStep).wake).1).stopped = _
  rw [storeStep_stopped, wake_fst_stopped]
  rfl

lemma drop_fst_notifyGen (s : TaskSharedState) :
    (StopGuard.drop s).1.notifyGen = s.notifyGen := by
  show (TaskSharedState.storeStep s.num_tasks ((s.decStep).wake).1).notifyGen = _
  rw [storeStep_notifyGen, wake_fst_notifyGen]
  rfl

lemma drop_fst_poisoned (s : TaskSharedState) :
    (StopGuard.drop s).1.wakerPoisoned = s.wakerPoisoned := by
  show (TaskSharedState.storeStep s.num_tasks ((s.decStep).wake).1).wakerPoisoned = _
  rw [storeStep_poisoned, wake_fst_poisoned]
  rfl

lemma drop_fst_num_of_bounds (s : TaskSharedState) (h1 : 1 ≤ s.num_tasks) :
    (StopGuard.drop s).1.num_tasks = s.num_tasks - 1 := by
  rw [drop_fst_num, if_neg (by omega)]

lemma spawnInc_num_of_bounds (s : TaskSharedState) (h : s.num_tasks + 1 < u32Mod) :
    (spawnInc s).num_tasks = s.num_tasks + 1 := by
  have h2 : s.num_tasks + 1 < 4294967296 := h
  show (s.num_tasks + 1) % 4294967296 = s.num_tasks + 1
  omega

/-! ### Per-event and per-trace invariants -/

lemma applyEvent_stopped (s : TaskSharedState) (e : Event) :
    (applyEvent s e).stopped
      = (s.stopped || (decide (e = Event.releaseEv) && decide (s.num_tasks = 1))) := by
  cases e
  · simp [applyEvent, spawnInc]
  · simp [applyEvent, drop_fst_stopped]
  · simp [applyEvent, stop_stopped]

lemma applyEvent_stopped_mono (s : TaskSharedState) (e : Event)
    (h : s.stopped = true) : (applyEvent s e).stopped = true := by
  simp [applyEvent_stopped, h]

lemma applyEvent_poisoned (s : TaskSharedState) (e : Event) :
    (applyEvent s e).wakerPoisoned = s.wakerPoisoned := by
  cases e
  · rfl
  · exact drop_fst_poisoned s
  · exact stop_poisoned s

lemma applyEvent_notifyGen_mono (s : TaskSharedState) (e : Event) :
    s.notifyGen ≤ (applyEvent s e).notifyGen := by
  cases e
  · exact Nat.le_refl _
  · exact Nat.le_of_eq (drop_fst_notifyGen s).symm
  · show s.notifyGen ≤ (s.stop).notifyGen
    unfold TaskSharedState.stop
    split
    · exact Nat.le_refl _
    · exact Nat.le_succ _

lemma runTrace_cons (s : TaskSharedState) (e : Event) (tr : List Event) :
    runTrace s (e :: tr) = runTrace (applyEvent s e) tr := rfl

lemma runTrace_stopped_mono (tr : List Event) :
    ∀ s : TaskSharedState, s.stopped = true → (runTrace s tr).stopped = true := by
  induction tr with
  | nil => intro s h; exact h
  | cons e rest ih =>
    intro s h
    exact ih (applyEvent s e) (applyEvent_stopped_mono s e h)

lemma runTrace_poisoned (tr : List Event) :
    ∀ s : TaskSharedState, (runTrace s tr).wakerPoisoned = s.wakerPoisoned := by
  induction tr with
  | nil => intro s; rfl
  | cons e rest ih =>
    intro s
    rw [runTrace_cons, ih (applyEvent s e), applyEvent_poisoned]

lemma runTrace_notifyGen_mono (tr : List Event) :
    ∀ s : TaskSharedState, s.notifyGen ≤ (runTrace s tr).notifyGen := by
  induction tr with
  | nil => intro s; exact Nat.le_refl _
  | cons e rest ih =>
    intro s
    exact Nat.le_trans (applyEvent_notifyGen_mono s e) (ih (applyEvent s e))

/-- In a balanced trace that releases every spawned task (and starts or
spawns at least one), some release observes the pre-decrement counter
value `1`, so the drained latch ends set. -/
lemma runTrace_drained (tr : List Event) :
    ∀ s : TaskSharedState,
      balancedFrom s.num_tasks tr = true →
      s.num_tasks + spawnCount tr < u32Mod →
      s.num_tasks + spawnCount tr = releaseCount tr →
      0 < s.num_tasks + spawnCount tr →
      (runTrace s tr).stopped = true := by
  induction tr with
  | nil =>
    intro s _ _ heq hpos
    simp [spawnCount, releaseCount] at heq hpos
    omega
  | cons e rest ih =>
    intro s hb hlt heq hpos
    cases e with
    | spawnEv =>
      simp only [balancedFrom] at hb
      simp only [spawnCount] at hlt heq hpos
      have hnum : (applyEvent s Event.spawnEv).num_tasks = s.num_tasks + 1 :=
        spawnInc_num_of_bounds s (by omega)
      rw [runTrace_cons]
      apply ih
      · rw [hnum]; exact hb
      · rw [hnum]; simp only [releaseCount] at heq; omega
      · rw [hnum]; simp only [releaseCount] at heq ⊢; omega
      · rw [hnum]; omega
    | releaseEv =>
      simp only [balancedFrom, Bool.and_eq_true, decide_eq_true_eq] at hb
      obtain ⟨hposn, hbrest⟩ := hb
      simp only [spawnCount] at hlt heq hpos
      simp only [releaseCount] at heq
      by_cases h1 : s.num_tasks = 1
      · rw [runTrace_cons]
        apply runTrace_stopped_mono
        rw [applyEvent_stopped, h1]
        simp
      · have hge : 2 ≤ s.num_tasks := by omega
        have hnum : (applyEvent s Event.releaseEv).num_tasks = s.num_tasks - 1 :=
          drop_fst_num_of_bounds s (by omega)
        rw [runTrace_cons]
        apply ih
        · rw [hnum]; exact hbrest
        · rw [hnum]; omega
        · rw [hnum]; omega
        · rw [hnum]; omega
    | stopEv =>
      simp only [balancedFrom] at hb
      simp only [spawnCount] at hlt heq hpos
      simp only [releaseCount] at heq
      have hnum : (applyEvent s Event.stopEv).num_tasks = s.num_tasks :=
        stop_num s
      rw [runTrace_cons]
      apply ih
      · rw [hnum]; exact hb
      · rw [hnum]; omega
      · rw [hnum]; omega
      · rw [hnum]; omega

/-- In a balanced trace in which no release ever observes pre-decrement
counter value `1` (the group never drains), the drained latch stays
false. -/
lemma runTrace_not_drained (tr : List Event) :
    ∀ s : TaskSharedState,
      s.stopped = false →
      s.num_tasks + spawnCount tr < u32Mod →
      balancedFrom s.num_tasks tr = true →
      noDrain s.num_tasks tr = true →
      (runTrace s tr).stopped = false := by
  induction tr with
  | nil => intro s hs _ _ _; exact hs
  | cons e rest ih =>
    intro s hs hlt hb hnd
    cases e with
    | spawnEv =>
      simp only [balancedFrom] at hb
      simp only [noDrain] at hnd
      simp only [spawnCount] at hlt
      have hnum : (applyEvent s Event.spawnEv).num_tasks = s.num_tasks + 1 :=
        spawnInc_num_of_bounds s (by omega)
      have hst : (applyEvent s Event.spawnEv).stopped = s.stopped := by
        rw [applyEvent_stopped]; simp
      rw [runTrace_cons]
      apply ih
      · rw [hst]; exact hs
      · rw [hnum]; omega
      · rw [hnum]; exact hb
      · rw [hnum]; exact hnd
    | releaseEv =>
      simp only [balancedFrom, Bool.and_eq_true, decide_eq_true_eq] at hb
      obtain ⟨hposn, hbrest⟩ := hb
      simp only [noDrain, Bool.and_eq_true, decide_eq_true_eq] at hnd
      obtain ⟨hne1, hndrest⟩ := hnd
      simp only [spawnCount] at hlt
      have hnum : (applyEvent s Event.releaseEv).num_tasks = s.num_tasks - 1 :=
        drop_fst_num_of_bounds s (by omega)
      have hst : (applyEvent s Event.releaseEv).stopped = s.stopped := by
        rw [applyEvent_stopped]
        simp [hne1]
      rw [runTrace_cons]
      apply ih
      · rw [hst]; exact hs
      · rw [hnum]; omega
      · rw [hnum]; exact hbrest
      · rw [hnum]; exact hndrest
    | stopEv =>
      simp only [balancedFrom] at hb
      simp only [noDrain] at hnd
      simp only [spawnCount] at hlt
      have hnum : (applyEvent s Event.stopEv).num_tasks = s.num_tasks :=
        stop_num s
      have hst : (applyEvent s Event.stopEv).stopped = s.stopped := stop_stopped s
      rw [runTrace_cons]
      apply ih
      · rw [hst]; exact hs
      · rw [hnum]; omega
      · rw [hnum]; exact hb
      · rw [hnum]; exact hnd

/-- Counter correctness: along a balanced trace with no wrap, the final
counter plus the releases equals the initial counter plus the spawns. -/
lemma runTrace_num (tr : List Event) :
    ∀ s : TaskSharedState,
      s.num_tasks + spawnCount tr < u32Mod →
      balancedFrom s.num_tasks tr = true →
      (runTrace s tr).num_tasks + releaseCount tr = s.num_tasks + spawnCount tr := by
  induction tr with
  | nil => intro s _ _; simp [runTrace, spawnCount, releaseCount]
  | cons e rest ih =>
    intro s hlt hb
    cases e with
    | spawnEv =>
      simp only [balancedFrom] at hb
      simp only [spawnCount] at hlt ⊢
      simp only [releaseCount]
      have hnum : (applyEvent s Event.spawnEv).num_tasks = s.num_tasks + 1 :=
        spawnInc_num_of_bounds s (by omega)
      rw [runTrace_cons]
      have := ih (applyEvent s Event.spawnEv) (by rw [hnum]; omega) (by rw [hnum]; exact hb)
      rw [hnum] at this
      omega
    | releaseEv =>
      simp only [balancedFrom, Bool.and_eq_true, decide_eq_true_eq] at hb
      obtain ⟨hposn, hbrest⟩ := hb
      simp only [spawnCount] at hlt ⊢
      simp only [releaseCount]
      have hnum : (applyEvent s Event.releaseEv).num_tasks = s.num_tasks - 1 :=
        drop_fst_num_of_bounds s (by omega)
      rw [runTrace_cons]
      have := ih (applyEvent s Event.releaseEv) (by rw [hnum]; omega) (by rw [hnum]; exact hbrest)
      rw [hnum] at this
      omega
    | stopEv =>
      simp only [balancedFrom] at hb
      simp only [spawnCount] at hlt ⊢
      simp only [releaseCount]
      have hnum : (applyEvent s Event.stopEv).num_tasks = s.num_tasks := stop_num s
      rw [runTrace_cons]
      have := ih (applyEvent s Event.stopEv) (by rw [hnum]; omega) (by rw [hnum]; exact hb)
      rw [hnum] at this
      omega

/-- Once the drained latch is set, no further false-to-true transition
happens. -/
lemma flipCount_zero_of_stopped (tr : List Event) :
    ∀ s : TaskSharedState, s.stopped = true → flipCount s tr = 0 := by
  induction tr with
  | nil => intro s _; rfl
  | cons e rest ih =>
    intro s h
    simp only [flipCount]
    rw [ih (applyEvent s e) (applyEvent_stopped_mono s e h)]
    simp [h]

/-- The drained latch flips false-to-true at most once along any
trace. -/
lemma flipCount_le_one (tr : List Event) :
    ∀ s : TaskSharedState, flipCount s tr ≤ 1 := by
  induction tr with
  | nil => intro s; exact Nat.zero_le 1
  | cons e rest ih =>
    intro s
    simp only [flipCount]
    by_cases h : s.stopped = false ∧ (applyEvent s e).stopped = true
    · rw [if_pos h, flipCount_zero_of_stopped rest (applyEvent s e) h.2]
    · rw [if_neg h, Nat.zero_add]
      exact ih (applyEvent s e)

lemma pollNotified_ready_iff (g : Nat) (s : TaskSharedState) :
    pollNotified g s = Poll.ready () ↔ g < s.notifyGen := by
  unfold pollNotified
  by_cases h : g < s.notifyGen <;> simp [h]

lemma set_waker_snd (s : TaskSharedState) (w : Waker) :
    (s.set_waker w).2 = !s.wakerPoisoned := by
  unfold TaskSharedState.set_waker
  by_cases h : s.wakerPoisoned <;> simp [h]

/-- A `Stopper` polls ready exactly when the drained latch is set, or it
holds no subscription, or its subscription has been notified (the notify
generation has advanced past the captured one). -/
lemma stopper_poll_ready_iff (st : Stopper) (s : TaskSharedState) :
    st.poll s = Poll.ready Stopped.mk
      ↔ (s.stopped = true ∨ st.notified = none
          ∨ ∃ g, st.notified = some g ∧ g < s.notifyGen) := by
  unfold Stopper.poll
  by_cases hs : s.stopped = true
  · simp [hs]
  · rw [if_neg hs]
    cases hn : st.notified with
    | none => simp [hs, hn]
    | some g =>
      unfold pollNotified
      by_cases hg : g < s.notifyGen <;> simp [hs, hn, hg]

/-- The second component of a `Joinner` poll, characterized: ready when
the drained latch is set or the waker lock is poisoned, pending
otherwise. -/
lemma joinner_poll_snd (s : TaskSharedState) (w : Waker) :
    (Joinner.poll s w).2
      = (if s.stopped = true then Poll.ready ()
         else if s.wakerPoisoned = true then Poll.ready () else Poll.pending) := by
  unfold Joinner.poll TaskSharedState.set_waker
  by_cases hs : s.stopped = true
  · simp [hs]
  · by_cases hp : s.wakerPoisoned = true <;> simp [hs, hp]

/-- A resolved `Stopper` stays resolved across any further events of the
group: the drained latch and the notify generation are both
monotone. -/
lemma stopper_poll_ready_stable (tr : List Event) (st : Stopper)
    (s : TaskSharedState) (h : st.poll s = Poll.ready Stopped.mk) :
    st.poll (runTrace s tr) = Poll.ready Stopped.mk := by
  rw [stopper_poll_ready_iff] at h ⊢
  rcases h with hs | hn | ⟨g, hg1, hg2⟩
  · exact Or.inl (runTrace_stopped_mono tr s hs)
  · exact Or.inr (Or.inl hn)
  · exact Or.inr (Or.inr
      ⟨g, hg1, Nat.lt_of_lt_of_le hg2 (runTrace_notifyGen_mono tr s)⟩)

/-- A resolved `Joinner` poll stays resolved across any further events:
either the drained latch was set (and it is monotone) or the waker lock
was poisoned (and poisoning is permanent). -/
lemma joinner_poll_ready_stable (tr : List Event) (s : TaskSharedState)
    (w w2 : Waker) (h : (Joinner.poll s w).2 = Poll.ready ()) :
    (Joinner.poll (runTrace s tr) w2).2 = Poll.ready () := by
  rw [joinner_poll_snd] at h ⊢
  by_cases hs : s.stopped = true
  · rw [if_pos (runTrace_stopped_mono tr s hs)]
  · rw [if_neg hs] at h
    by_cases hp : s.wakerPoisoned = true
    · have hp2 : (runTrace s tr).wakerPoisoned = true := by
        rw [runTrace_poisoned tr s]; exact hp
      by_cases hs2 : (runTrace s tr).stopped = true
      · rw [if_pos hs2]
      · rw [if_neg hs2, if_pos hp2]
    · rw [if_neg hp] at h
      simp at h

lemma decStep_num (s : TaskSharedState) :
    (s.decStep).num_tasks
      = (if s.num_tasks = 0 then u32Mod - 1 else s.num_tasks - 1) := rfl

lemma stopper_poll_of_stopped (st : Stopper) (s : TaskSharedState)
    (h : s.stopped = true) : st.poll s = Poll.ready Stopped.mk := by
  unfold Stopper.poll
  rw [if_pos h]

lemma stopper_poll_some (g : Nat) (s : TaskSharedState) (h : s.stopped = false) :
    Stopper.poll { notified := some g } s
      = (if g < s.notifyGen then Poll.ready Stopped.mk else Poll.pending) := by
  unfold Stopper.poll pollNotified
  by_cases hg : g < s.notifyGen <;> simp [h, hg]

lemma stop_notifyGen_of_not_stopped (s : TaskSharedState)
    (h : s.stopped = false) : (s.stop).notifyGen = s.notifyGen + 1 := by
  unfold TaskSharedState.stop
  rw [if_neg (by simp [h])]

lemma joinner_poll_fst_stopped (s : TaskSharedState) (w : Waker) :
    (Joinner.poll s w).1.stopped = s.stopped := by
  unfold Joinner.poll TaskSharedState.set_waker
  by_cases hs : s.stopped = true
  · simp [hs]
  · by_cases hp : s.wakerPoisoned = true <;> simp [hs, hp]

/-- A task that has started running releases its guard exactly once:
the tail of its operation list is one guard release after the body
steps. -/
lemma releaseGuardCount_replicate_append (m : Nat) :
    releaseGuardCount
      (List.replicate m TaskOp.bodyStep ++ [TaskOp.releaseGuard]) = 1 := by
  induction m with
  | zero => rfl
  | succ k ih =>
    rw [List.replicate_succ, List.cons_append]
    show releaseGuardCount
      (List.replicate k TaskOp.bodyStep ++ [TaskOp.releaseGuard]) = 1
    exact ih

/-- Every exit kind of a task that has begun execution performs exactly
one guard release. -/
lemma releaseGuardCount_wrapper (n : Nat) (e : ExitKind)
    (h : e ≠ ExitKind.cancelledBeforeFirstPoll) :
    releaseGuardCount (wrapperOps n e) = 1 := by
  cases e with
  | completed => exact releaseGuardCount_replicate_append n
  | cancelledBeforeFirstPoll => exact absurd rfl h
  | cancelledAfterPolls k => exact releaseGuardCount_replicate_append (min k n)
  | panicked k => exact releaseGuardCount_replicate_append (min k n)

/-! ### Claim theorems -/

/-- Claim C1: the claim states that for every task registered through
`spawn()` the `StopGuard` release runs exactly once on every exit path —
normal completion, external cancellation, and failure/panic — so each
increment of `spawn` is matched by exactly one decrement.  The code
violates this for a task that is externally cancelled before its first
poll: `spawn` performs `fetch_add(1)` eagerly (line 233) but the
`StopGuard` is only constructed inside the spawned async block
(line 235), on first poll; dropping the never-polled future runs no
release, so the increment is never matched and `num_tasks` stays at
`1`.  For the exit paths of a task that did start — completion,
cancellation after it ran, panic — the release does run exactly once
and restores the counter. -/
theorem C1_release_on_cancel_leak :
    releaseGuardCount (wrapperOps 3 ExitKind.completed) = 1
    ∧ releaseGuardCount (wrapperOps 3 (ExitKind.cancelledAfterPolls 1)) = 1
    ∧ releaseGuardCount (wrapperOps 3 (ExitKind.panicked 1)) = 1
    ∧ releaseGuardCount (wrapperOps 3 ExitKind.cancelledBeforeFirstPoll) = 0
    ∧ (runTaskOps (spawnInc TaskSharedState.new)
        (wrapperOps 3 ExitKind.cancelledBeforeFirstPoll)).num_tasks = 1
    ∧ (runTaskOps (spawnInc TaskSharedState.new)
        (wrapperOps 3 ExitKind.completed)).num_tasks = 0 := by
  decide

/-- Claim C2 (counterexample): as stated, the claim says a drain barrier
never resolves while any task of the group is unfinished (while
`live_count` is nonzero).  This fails on the code: the drained latch is
one-way, so in the trace spawn, release, spawn the first task drains the
group, the latch is set permanently, and a `Joinner` polled afterwards
returns ready even though the second spawned task is unfinished and
`num_tasks = 1`. -/
theorem C2_counterexample_late_spawn :
    (runTrace TaskSharedState.new
        [Event.spawnEv, Event.releaseEv, Event.spawnEv]).num_tasks = 1
    ∧ (Joinner.poll (runTrace TaskSharedState.new
        [Event.spawnEv, Event.releaseEv, Event.spawnEv]) 0).2 = Poll.ready () := by
  decide

/-- Claim C2 (amended): for any balanced interleaving of `N ≥ 1` spawns
with their releases (and any `stop` calls), once all `N` tasks have
finished the counter is back to zero and the drain barrier polls ready;
and as long as the group has not yet drained (no release has observed a
pre-decrement count of one), the barrier never polls ready while the
live count is nonzero. -/
theorem C2_drain_barrier (tr p : List Event) (w w2 : Waker)
    (hb : balancedFrom 0 tr = true)
    (hlt : spawnCount tr < u32Mod)
    (hcomp : releaseCount tr = spawnCount tr)
    (hpos : 0 < spawnCount tr)
    (hbp : balancedFrom 0 p = true)
    (hltp : spawnCount p < u32Mod)
    (hnd : noDrain 0 p = true)
    (hlive : releaseCount p < spawnCount p) :
    (runTrace TaskSharedState.new tr).num_tasks = 0
    ∧ (Joinner.poll (runTrace TaskSharedState.new tr) w).2 = Poll.ready ()
    ∧ 0 < (runTrace TaskSharedState.new p).num_tasks
    ∧ (Joinner.poll (runTrace TaskSharedState.new p) w2).2 = Poll.pending := by
  have hnum0 : TaskSharedState.new.num_tasks = 0 := rfl
  have hnum := runTrace_num tr TaskSharedState.new
    (by rw [hnum0]; omega) (by rw [hnum0]; exact hb)
  rw [hnum0] at hnum
  have hdr : (runTrace TaskSharedState.new tr).stopped = true :=
    runTrace_drained tr TaskSharedState.new (by rw [hnum0]; exact hb)
      (by rw [hnum0]; omega) (by rw [hnum0]; omega) (by rw [hnum0]; omega)
  have hnump := runTrace_num p TaskSharedState.new
    (by rw [hnum0]; omega) (by rw [hnum0]; exact hbp)
  rw [hnum0] at hnump
  have hndr : (runTrace TaskSharedState.new p).stopped = false :=
    runTrace_not_drained p TaskSharedState.new rfl
      (by rw [hnum0]; omega) (by rw [hnum0]; exact hbp) (by rw [hnum0]; exact hnd)
  have hpois : (runTrace TaskSharedState.new p).wakerPoisoned = false :=
    runTrace_poisoned p TaskSharedState.new
  refine ⟨by omega, ?_, by omega, ?_⟩
  · rw [joinner_poll_snd, if_pos hdr]
  · rw [joinner_poll_snd, if_neg (by simp [hndr]), if_neg (by simp [hpois])]

/-- Witness for `C2_drain_barrier`: the complete trace spawn, release
with one task, and the still-live trace of a single spawn. -/
theorem C2_drain_barrier_witness :
    (balancedFrom 0 [Event.spawnEv, Event.releaseEv] = true
      ∧ spawnCount [Event.spawnEv, Event.releaseEv] < u32Mod
      ∧ releaseCount [Event.spawnEv, Event.releaseEv]
          = spawnCount [Event.spawnEv, Event.releaseEv]
      ∧ 0 < spawnCount [Event.spawnEv, Event.releaseEv]
      ∧ balancedFrom 0 [Event.spawnEv] = true
      ∧ spawnCount [Event.spawnEv] < u32Mod
      ∧ noDrain 0 [Event.spawnEv] = true
      ∧ releaseCount [Event.spawnEv] < spawnCount [Event.spawnEv])
    ∧ ((runTrace TaskSharedState.new [Event.spawnEv, Event.releaseEv]).num_tasks = 0
      ∧ (Joinner.poll (runTrace TaskSharedState.new
          [Event.spawnEv, Event.releaseEv]) 0).2 = Poll.ready ()
      ∧ 0 < (runTrace TaskSharedState.new [Event.spawnEv]).num_tasks
      ∧ (Joinner.poll (runTrace TaskSharedState.new
          [Event.spawnEv]) 0).2 = Poll.pending) :=
  ⟨by decide,
   C2_drain_barrier [Event.spawnEv, Event.releaseEv] [Event.spawnEv] 0 0
     (by decide) (by decide) (by decide) (by decide)
     (by decide) (by decide) (by decide) (by decide)⟩

/-- Claim C3: the drained latch starts false, changes across a step
exactly when that step is a release whose pre-decrement counter equals
one, never reverts once true (under stop, spawn, further releases and
barrier polls), and flips false-to-true at most once along any trace. -/
theorem C3_drained_latch (s s2 s3 s4 : TaskSharedState) (e : Event)
    (tr tr2 : List Event) (w : Waker) (h : s.stopped = true) :
    TaskSharedState.new.stopped = false
    ∧ (applyEvent s2 e).stopped
        = (s2.stopped || (decide (e = Event.releaseEv) && decide (s2.num_tasks = 1)))
    ∧ (runTrace s tr).stopped = true
    ∧ flipCount s3 tr2 ≤ 1
    ∧ (Joinner.poll s4 w).1.stopped = s4.stopped :=
  ⟨rfl, applyEvent_stopped s2 e, runTrace_stopped_mono tr s h,
   flipCount_le_one tr2 s3, joinner_poll_fst_stopped s4 w⟩

/-- Witness for `C3_drained_latch` at a drained state and concrete
traces. -/
theorem C3_drained_latch_witness :
    (runTrace TaskSharedState.new [Event.spawnEv, Event.releaseEv]).stopped = true
    ∧ (TaskSharedState.new.stopped = false
      ∧ (applyEvent TaskSharedState.new Event.releaseEv).stopped
          = (TaskSharedState.new.stopped
              || (decide (Event.releaseEv = Event.releaseEv)
                  && decide (TaskSharedState.new.num_tasks = 1)))
      ∧ (runTrace (runTrace TaskSharedState.new [Event.spawnEv, Event.releaseEv])
          [Event.stopEv]).stopped = true
      ∧ flipCount TaskSharedState.new [Event.spawnEv, Event.releaseEv] ≤ 1
      ∧ (Joinner.poll TaskSharedState.new 0).1.stopped
          = TaskSharedState.new.stopped) :=
  ⟨by decide,
   C3_drained_latch (runTrace TaskSharedState.new [Event.spawnEv, Event.releaseEv])
     TaskSharedState.new TaskSharedState.new TaskSharedState.new Event.releaseEv
     [Event.stopEv] [Event.spawnEv, Event.releaseEv] 0 (by decide)⟩

/-- Claim C4: `stop()` is the identity on a drained group; on an
undrained group it leaves the latch and counter alone and only advances
the broadcast, waking exactly the subscriptions in existence at the
call (captured generation at most the pre-call generation); it arms no
standing state, so a signal subscribed after the call polls pending on
the post-call state and resolves only once the group drains. -/
theorem C4_stop_broadcast (s1 s2 s3 : TaskSharedState) (g : Nat)
    (h1 : s1.stopped = true) (h2 : s2.stopped = false) (h3 : s3.stopped = true) :
    TaskSharedState.stop s1 = s1
    ∧ (TaskSharedState.stop s2).stopped = s2.stopped
    ∧ (TaskSharedState.stop s2).num_tasks = s2.num_tasks
    ∧ (TaskSharedState.stop s2).notifyGen = s2.notifyGen + 1
    ∧ (Stopper.poll { notified := some g } (TaskSharedState.stop s2)
        = Poll.ready Stopped.mk ↔ g ≤ s2.notifyGen)
    ∧ Stopper.new (TaskSharedState.stop s2)
        = { notified := some (s2.notifyGen + 1) }
    ∧ Stopper.poll (Stopper.new (TaskSharedState.stop s2))
        (TaskSharedState.stop s2) = Poll.pending
    ∧ Stopper.poll (Stopper.new (TaskSharedState.stop s2)) s3
        = Poll.ready Stopped.mk := by
  have hstop2 : (TaskSharedState.stop s2).stopped = false := by
    rw [stop_stopped]; exact h2
  have hgen : (TaskSharedState.stop s2).notifyGen = s2.notifyGen + 1 :=
    stop_notifyGen_of_not_stopped s2 h2
  have hnew : Stopper.new (TaskSharedState.stop s2)
      = { notified := some (s2.notifyGen + 1) } := by
    unfold Stopper.new
    rw [if_neg (by simp [hstop2]), hgen]
  refine ⟨?_, stop_stopped s2, stop_num s2, hgen, ?_, hnew, ?_, ?_⟩
  · unfold TaskSharedState.stop
    rw [if_pos h1]
  · rw [stopper_poll_some g _ hstop2, hgen]
    by_cases hg : g < s2.notifyGen + 1
    · have hle : g ≤ s2.notifyGen := by omega
      rw [if_pos hg]
      simp [hle]
    · have hnle : ¬g ≤ s2.notifyGen := by omega
      rw [if_neg hg]
      constructor
      · intro hc
        exact absurd hc (by decide)
      · intro hc
        exact absurd hc hnle
  · rw [hnew, stopper_poll_some _ _ hstop2, hgen, if_neg (by omega)]
  · rw [hnew]
    exact stopper_poll_of_stopped _ s3 h3

/-- Witness for `C4_stop_broadcast` at concrete states. -/
theorem C4_stop_broadcast_witness :
    ((runTrace TaskSharedState.new [Event.spawnEv, Event.releaseEv]).stopped = true
      ∧ TaskSharedState.new.stopped = false
      ∧ (runTrace TaskSharedState.new [Event.spawnEv, Event.releaseEv]).stopped = true)
    ∧ (TaskSharedState.stop
        (runTrace TaskSharedState.new [Event.spawnEv, Event.releaseEv])
        = runTrace TaskSharedState.new [Event.spawnEv, Event.releaseEv]
      ∧ (TaskSharedState.stop TaskSharedState.new).stopped
          = TaskSharedState.new.stopped
      ∧ (TaskSharedState.stop TaskSharedState.new).num_tasks
          = TaskSharedState.new.num_tasks
      ∧ (TaskSharedState.stop TaskSharedState.new).notifyGen
          = TaskSharedState.new.notifyGen + 1
      ∧ (Stopper.poll { notified := some 0 }
            (TaskSharedState.stop TaskSharedState.new)
          = Poll.ready Stopped.mk ↔ 0 ≤ TaskSharedState.new.notifyGen)
      ∧ Stopper.new (TaskSharedState.stop TaskSharedState.new)
          = { notified := some (TaskSharedState.new.notifyGen + 1) }
      ∧ Stopper.poll (Stopper.new (TaskSharedState.stop TaskSharedState.new))
          (TaskSharedState.stop TaskSharedState.new) = Poll.pending
      ∧ Stopper.poll (Stopper.new (TaskSharedState.stop TaskSharedState.new))
          (runTrace TaskSharedState.new [Event.spawnEv, Event.releaseEv])
          = Poll.ready Stopped.mk) :=
  ⟨⟨by decide, by decide, by decide⟩,
   C4_stop_broadcast (runTrace TaskSharedState.new [Event.spawnEv, Event.releaseEv])
     TaskSharedState.new
     (runTrace TaskSharedState.new [Event.spawnEv, Event.releaseEv]) 0
     (by decide) (by decide) (by decide)⟩

/-- Claim C5: a `Stopper` constructed on a drained group takes no
subscription and is immediately resolved; one constructed on an
undrained group registers exactly one subscription (capturing the
current notify generation); and every poll re-checks the drained latch
first — resolving whenever it is set, for any signal — and otherwise
delegates to the subscription. -/
theorem C5_stopper_construction (s t u v : TaskSharedState) (st : Stopper)
    (g : Nat) (h1 : s.stopped = true) (h2 : t.stopped = false)
    (h3 : u.stopped = false) (h4 : v.stopped = true) :
    Stopper.new s = { notified := none }
    ∧ Stopper.poll (Stopper.new s) s = Poll.ready Stopped.mk
    ∧ Stopper.new t = { notified := some t.notifyGen }
    ∧ Stopper.poll st v = Poll.ready Stopped.mk
    ∧ Stopper.poll { notified := some g } u
        = (if g < u.notifyGen then Poll.ready Stopped.mk else Poll.pending) := by
  refine ⟨?_, stopper_poll_of_stopped _ s h1, ?_,
    stopper_poll_of_stopped st v h4, stopper_poll_some g u h3⟩
  · unfold Stopper.new
    rw [if_pos h1]
  · unfold Stopper.new
    rw [if_neg (by simp [h2])]

/-- Witness for `C5_stopper_construction` at concrete states. -/
theorem C5_stopper_construction_witness :
    ((runTrace TaskSharedState.new [Event.spawnEv, Event.releaseEv]).stopped = true
      ∧ TaskSharedState.new.stopped = false
      ∧ (TaskSharedState.stop TaskSharedState.new).stopped = false
      ∧ (runTrace TaskSharedState.new [Event.spawnEv, Event.releaseEv]).stopped = true)
    ∧ (Stopper.new (runTrace TaskSharedState.new [Event.spawnEv, Event.releaseEv])
        = { notified := none }
      ∧ Stopper.poll
          (Stopper.new (runTrace TaskSharedState.new [Event.spawnEv, Event.releaseEv]))
          (runTrace TaskSharedState.new [Event.spawnEv, Event.releaseEv])
          = Poll.ready Stopped.mk
      ∧ Stopper.new TaskSharedState.new
          = { notified := some TaskSharedState.new.notifyGen }
      ∧ Stopper.poll { notified := some 5 }
          (runTrace TaskSharedState.new [Event.spawnEv, Event.releaseEv])
          = Poll.ready Stopped.mk
      ∧ Stopper.poll { notified := some 0 }
          (TaskSharedState.stop TaskSharedState.new)
          = (if 0 < (TaskSharedState.stop TaskSharedState.new).notifyGen
             then Poll.ready Stopped.mk else Poll.pending)) :=
  ⟨⟨by decide, by decide, by decide, by decide⟩,
   C5_stopper_construction
     (runTrace TaskSharedState.new [Event.spawnEv, Event.releaseEv])
     TaskSharedState.new
     (TaskSharedState.stop TaskSharedState.new)
     (runTrace TaskSharedState.new [Event.spawnEv, Event.releaseEv])
     { notified := some 5 } 0
     (by decide) (by decide) (by decide) (by decide)⟩

/-- Claim C6: repeated `stop()` calls keep reporting the same terminal
outcome (they never change the counter or the latch); a `Stopper` that
has resolved polls ready again after any further events of the group
without a new subscription (the stopper value is unchanged); and a
`Joinner` that has resolved polls ready again after any further
events. -/
theorem C6_idempotent_terminal (s s2 s3 : TaskSharedState) (st : Stopper)
    (tr tr2 : List Event) (w w2 : Waker)
    (h2 : Stopper.poll st s2 = Poll.ready Stopped.mk)
    (h3 : (Joinner.poll s3 w).2 = Poll.ready ()) :
    (TaskSharedState.stop (TaskSharedState.stop s)).num_tasks
        = (TaskSharedState.stop s).num_tasks
    ∧ (TaskSharedState.stop (TaskSharedState.stop s)).stopped
        = (TaskSharedState.stop s).stopped
    ∧ Stopper.poll st (runTrace s2 tr) = Poll.ready Stopped.mk
    ∧ (Joinner.poll (runTrace s3 tr2) w2).2 = Poll.ready () :=
  ⟨stop_num _, stop_stopped _, stopper_poll_ready_stable tr st s2 h2,
   joinner_poll_ready_stable tr2 s3 w w2 h3⟩

/-- Witness for `C6_idempotent_terminal`: a stopper resolved by a
broadcast and a drained barrier, each re-polled after further events. -/
theorem C6_idempotent_terminal_witness :
    (Stopper.poll { notified := some 0 } (TaskSharedState.stop TaskSharedState.new)
        = Poll.ready Stopped.mk
      ∧ (Joinner.poll (runTrace TaskSharedState.new
          [Event.spawnEv, Event.releaseEv]) 0).2 = Poll.ready ())
    ∧ ((TaskSharedState.stop (TaskSharedState.stop TaskSharedState.new)).num_tasks
        = (TaskSharedState.stop TaskSharedState.new).num_tasks
      ∧ (TaskSharedState.stop (TaskSharedState.stop TaskSharedState.new)).stopped
          = (TaskSharedState.stop TaskSharedState.new).stopped
      ∧ Stopper.poll { notified := some 0 }
          (runTrace (TaskSharedState.stop TaskSharedState.new)
            [Event.stopEv, Event.spawnEv]) = Poll.ready Stopped.mk
      ∧ (Joinner.poll (runTrace (runTrace TaskSharedState.new
          [Event.spawnEv, Event.releaseEv]) [Event.spawnEv]) 1).2
          = Poll.ready ()) :=
  ⟨⟨by decide, by decide⟩,
   C6_idempotent_terminal TaskSharedState.new
     (TaskSharedState.stop TaskSharedState.new)
     (runTrace TaskSharedState.new [Event.spawnEv, Event.releaseEv])
     { notified := some 0 } [Event.stopEv, Event.spawnEv] [Event.spawnEv] 0 1
     (by decide) (by decide)⟩

/-- Claim C7: polling a `Joinner` on an undrained group whose waker
registration fails (poisoned waker lock) returns ready immediately, not
pending — the poll fails open. -/
theorem C7_fail_open (s : TaskSharedState) (w : Waker)
    (h1 : s.stopped = false) (h2 : s.wakerPoisoned = true) :
    (s.set_waker w).2 = false ∧ (Joinner.poll s w).2 = Poll.ready () := by
  constructor
  · rw [set_waker_snd, h2]
    rfl
  · rw [joinner_poll_snd, if_neg (by simp [h1]), if_pos h2]

/-- Witness for `C7_fail_open` at a poisoned, undrained state. -/
theorem C7_fail_open_witness :
    (({ TaskSharedState.new with wakerPoisoned := true } : TaskSharedState).stopped
        = false
      ∧ ({ TaskSharedState.new with wakerPoisoned := true }
          : TaskSharedState).wakerPoisoned = true)
    ∧ ((({ TaskSharedState.new with wakerPoisoned := true }
          : TaskSharedState).set_waker 0).2 = false
      ∧ (Joinner.poll
          ({ TaskSharedState.new with wakerPoisoned := true } : TaskSharedState)
          0).2 = Poll.ready ()) :=
  ⟨⟨by decide, by decide⟩,
   C7_fail_open { TaskSharedState.new with wakerPoisoned := true } 0
     (by decide) (by decide)⟩

/-- Claim C8: a `stop()` call leaves the live counter and the drained
latch of every state exactly unchanged, whatever the number of
unfinished tasks. -/
theorem C8_stop_frame (s : TaskSharedState) :
    (TaskSharedState.stop s).num_tasks = s.num_tasks
    ∧ (TaskSharedState.stop s).stopped = s.stopped :=
  ⟨stop_num s, stop_stopped s⟩

/-- Claim C9: `is_terminated` reports exactly the drained latch, so a
`Stopper` that has already resolved via the stop broadcast while the
group is not yet drained still reports `is_terminated = false`. -/
theorem C9_is_terminated_reports_drained (s s2 : TaskSharedState)
    (st st2 : Stopper) (h1 : s.stopped = false)
    (h2 : Stopper.poll st s = Poll.ready Stopped.mk) :
    Stopper.is_terminated st s = false
    ∧ Stopper.is_terminated st2 s2 = s2.stopped :=
  ⟨h1, rfl⟩

/-- Witness for `C9_is_terminated_reports_drained`: a stopper resolved
by a broadcast on an undrained group. -/
theorem C9_is_terminated_reports_drained_witness :
    ((TaskSharedState.stop TaskSharedState.new).stopped = false
      ∧ Stopper.poll { notified := some 0 }
          (TaskSharedState.stop TaskSharedState.new) = Poll.ready Stopped.mk)
    ∧ (Stopper.is_terminated { notified := some 0 }
          (TaskSharedState.stop TaskSharedState.new) = false
      ∧ Stopper.is_terminated { notified := none } TaskSharedState.new
          = TaskSharedState.new.stopped) :=
  ⟨⟨by decide, by decide⟩,
   C9_is_terminated_reports_drained (TaskSharedState.stop TaskSharedState.new)
     TaskSharedState.new { notified := some 0 } { notified := none }
     (by decide) (by decide)⟩

/-- Claim C10: `StopGuard::drop` decomposes, for every state, into the
decrement, then the take-and-invoke of the waker on the post-decrement
state, then the conditional latch store on the post-wake state; on the
final release (pre-decrement counter one, latch still false) the
post-wake intermediate state has counter zero with the latch still
false, and only the last step sets the latch. -/
theorem C10_release_ordering (s s2 : TaskSharedState)
    (h1 : s.num_tasks = 1) (h2 : s.stopped = false) :
    StopGuard.drop s2
        = (TaskSharedState.storeStep s2.num_tasks ((s2.decStep).wake).1,
           ((s2.decStep).wake).2)
    ∧ ((s.decStep).wake).1.num_tasks = 0
    ∧ ((s.decStep).wake).1.stopped = false
    ∧ (StopGuard.drop s).1.num_tasks = 0
    ∧ (StopGuard.drop s).1.stopped = true := by
  refine ⟨rfl, ?_, ?_, ?_, ?_⟩
  · rw [wake_fst_num, decStep_num, h1]
    decide
  · rw [wake_fst_stopped]
    exact h2
  · rw [drop_fst_num_of_bounds s (by omega), h1]
  · rw [drop_fst_stopped, h2, h1]
    decide

/-- Witness for `C10_release_ordering` at the state with one live
task. -/
theorem C10_release_ordering_witness :
    ((spawnInc TaskSharedState.new).num_tasks = 1
      ∧ (spawnInc TaskSharedState.new).stopped = false)
    ∧ (StopGuard.drop TaskSharedState.new
        = (TaskSharedState.storeStep TaskSharedState.new.num_tasks
            ((TaskSharedState.new.decStep).wake).1,
           ((TaskSharedState.new.decStep).wake).2)
      ∧ (((spawnInc TaskSharedState.new).decStep).wake).1.num_tasks = 0
      ∧ (((spawnInc TaskSharedState.new).decStep).wake).1.stopped = false
      ∧ (StopGuard.drop (spawnInc TaskSharedState.new)).1.num_tasks = 0
      ∧ (StopGuard.drop (spawnInc TaskSharedState.new)).1.stopped = true) :=
  ⟨⟨by decide, by decide⟩,
   C10_release_ordering (spawnInc TaskSharedState.new) TaskSharedState.new
     (by decide) (by decide)⟩

end TaskGroupSpec
